import Mathlib

/-!
Shallow embedding of `django_private_chat2/models.py`.

The file defines an in-memory value model (`DialogUser`, `Dialog`,
`Message`, `TextMessage` dataclasses) and two Django models,
`DialogsModel` (rows `(id, user1, user2)`, a `UniqueConstraint` on the
ordered field pair `['user1', 'user2']`) and `MessageModel` (rows with
`sender`, `recipient`, `text`, `file`, `read`, plus `is_removed` from
`SoftDeletableModel` and `created` from `TimeStampedModel`).

User primary keys are embedded as `Nat`, timestamps as `Nat`, and a
database table as a `List` of row structures in insertion order.
Django querysets become list filters; `.first()` becomes `List.head?`.
-/

/-- `DialogUser` dataclass: `id`, `was_online : Optional[datetime]`,
`is_online : bool = False`. -/
structure DialogUser where
  id : Nat
  was_online : Option Nat
  is_online : Bool := false
deriving Repr, DecidableEq

/-- `Dialog` dataclass: `id : str`, `creator`, `opponent`. -/
structure Dialog where
  id : String
  creator : DialogUser
  opponent : DialogUser
deriving Repr, DecidableEq

/-- `Dialog.__eq__(self, other)`:
`(self.creator.id == other.opponent.id and self.opponent.id == other.creator.id)
 or (self.creator.id == other.creator.id and self.opponent.id == other.opponent.id)`. -/
def Dialog.eq (self other : Dialog) : Bool :=
  (self.creator.id == other.opponent.id && self.opponent.id == other.creator.id) ||
  (self.creator.id == other.creator.id && self.opponent.id == other.opponent.id)

/-- A persisted `DialogsModel` row: `id = BigAutoField(primary_key=True)`,
`user1`/`user2` foreign keys to the user model (embedded as the users'
primary keys). The `created`/`modified` timestamps of `TimeStampedModel`
play no role in any dialog query of the source and are omitted. -/
structure DialogRow where
  id : Nat
  user1 : Nat
  user2 : Nat
deriving Repr, DecidableEq

/-- The filter predicate of `DialogsModel.dialog_exists`:
`Q(user1=u1, user2=u2) | Q(user1=u2, user2=u1)`. -/
def pairMatch (u1 u2 : Nat) (r : DialogRow) : Bool :=
  (r.user1 == u1 && r.user2 == u2) || (r.user1 == u2 && r.user2 == u1)

/-- `DialogsModel.dialog_exists(u1, u2)`:
`DialogsModel.objects.filter(Q(user1=u1, user2=u2) | Q(user1=u2, user2=u1)).first()`. -/
def dialog_exists (u1 u2 : Nat) (db : List DialogRow) : Option DialogRow :=
  (db.filter (pairMatch u1 u2)).head?

/-- Surrogate key handed out by `BigAutoField` for the next `objects.create`. -/
def nextDialogId (db : List DialogRow) : Nat :=
  db.length

/-- `DialogsModel.create_if_not_exists(u1, u2)`:
`res = DialogsModel.dialog_exists(u1, u2); if not res: DialogsModel.objects.create(user1=u1, user2=u2)`.
The first component is the Python return value: the function body has no
`return` statement, so on both paths the caller receives `None`. -/
def create_if_not_exists (u1 u2 : Nat) (db : List DialogRow) :
    Option DialogRow × List DialogRow :=
  match dialog_exists u1 u2 db with
  | some _ => (none, db)
  | none => (none, db ++ [⟨nextDialogId db, u1, u2⟩])

/-- Number of persisted dialog rows whose unordered user pair is `{u1, u2}`
(rows matching either orientation of `dialog_exists`'s filter). -/
def countPair (u1 u2 : Nat) (db : List DialogRow) : Nat :=
  (db.filter (pairMatch u1 u2)).length

/-- Same unordered pair of user ids, the spec's wording for `Dialog`
equality: the unordered pair `{creator.id, opponent.id}` of both operands
coincides (`Sym2` is the type of unordered pairs). -/
def sameUnorderedPair (d1 d2 : Dialog) : Prop :=
  s(d1.creator.id, d1.opponent.id) = s(d2.creator.id, d2.opponent.id)

/-- A persisted `MessageModel` row: `id = BigAutoField`, `sender` and
`recipient` foreign keys (embedded as user primary keys), `text`, `file`
(`blank=True`, embedded as `Option`), `read = BooleanField(default=False)`,
`is_removed` contributed by `SoftDeletableModel` (default `False`), and the
`created` timestamp contributed by `TimeStampedModel` (its `modified` twin
is used by no query of the source and is omitted). -/
structure MessageRow where
  id : Nat
  sender : Nat
  recipient : Nat
  text : String
  file : Option String
  read : Bool
  is_removed : Bool
  created : Nat
deriving Repr, DecidableEq

namespace MessageModel

/-- `MessageModel.objects`, the default manager: `SoftDeletableModel`
installs `SoftDeletableManager`, whose queryset excludes rows with
`is_removed=True`. -/
def objects (ms : List MessageRow) : List MessageRow :=
  ms.filter (fun r => !r.is_removed)

/-- `all_objects = models.Manager()`: the plain manager, every row. -/
def all_objects (ms : List MessageRow) : List MessageRow :=
  ms

/-- `MessageModel.get_unread_count_for_dialog_with_user(sender, recipient)`:
`MessageModel.objects.filter(sender_id=sender, recipient_id=recipient, read=False).count()`.
The queryset starts from the default (soft-delete-excluding) manager. -/
def get_unread_count_for_dialog_with_user (sender recipient : Nat)
    (ms : List MessageRow) : Nat :=
  ((objects ms).filter
    (fun r => r.sender == sender && r.recipient == recipient && r.read == false)).length

end MessageModel

/-- The whole persisted state the two models share: the dialog table and
the message table. -/
structure ChatState where
  dialogs : List DialogRow
  messages : List MessageRow
deriving Repr, DecidableEq

/-- `super(MessageModel, self).save(...)`: the ORM row write — an update in
place when a row with this primary key exists, an insert otherwise. -/
def upsertMessage (m : MessageRow) (ms : List MessageRow) : List MessageRow :=
  if ms.any (fun r => r.id == m.id) then
    ms.map (fun r => if r.id == m.id then m else r)
  else
    ms ++ [m]

namespace MessageModel

/-- `MessageModel.save(self, *args, **kwargs)`:
`super().save(...)` then `return DialogsModel.create_if_not_exists(self.sender, self.recipient)`. -/
def save (m : MessageRow) (s : ChatState) : ChatState :=
  { messages := upsertMessage m s.messages,
    dialogs := (create_if_not_exists m.sender m.recipient s.dialogs).snd }

end MessageModel

/-- Surrogate key handed out by `BigAutoField` for the next message row:
one larger than every existing key, so the key is fresh and monotonically
increasing. -/
def nextMessageId (ms : List MessageRow) : Nat :=
  (ms.map (fun r => r.id)).foldr max 0 + 1

/-- Creating a message: instantiating `MessageModel(sender=…, recipient=…,
text=…)` and saving it. The unspecified fields take their model defaults,
`read = BooleanField(default=False)` and `is_removed` default `False`;
`created` is stamped by `TimeStampedModel` with the current time `t`. -/
def createMessage (sender recipient : Nat) (payload : String) (t : Nat)
    (s : ChatState) : ChatState :=
  MessageModel.save
    ⟨nextMessageId s.messages, sender, recipient, payload, none, false, false, t⟩ s

/- ## Helper lemmas -/

theorem pairMatch_comm (u1 u2 : Nat) (r : DialogRow) :
    pairMatch u1 u2 r = pairMatch u2 u1 r := by
  simp [pairMatch, Bool.or_comm]

theorem dialog_exists_comm (u1 u2 : Nat) (db : List DialogRow) :
    dialog_exists u1 u2 db = dialog_exists u2 u1 db := by
  unfold dialog_exists
  congr 1
  exact List.filter_congr (fun r _ => pairMatch_comm u1 u2 r)

theorem dialog_exists_isSome_iff (u1 u2 : Nat) (db : List DialogRow) :
    (dialog_exists u1 u2 db).isSome ↔ ∃ r ∈ db, pairMatch u1 u2 r = true := by
  unfold dialog_exists
  rw [List.head?_isSome]
  constructor
  · intro h
    rcases List.exists_mem_of_ne_nil _ h with ⟨r, hr⟩
    exact ⟨r, (List.mem_filter.mp hr).1, (List.mem_filter.mp hr).2⟩
  · rintro ⟨r, hr, hm⟩
    exact List.ne_nil_of_mem (List.mem_filter.mpr ⟨hr, hm⟩)

theorem dialog_exists_eq_none_iff (u1 u2 : Nat) (db : List DialogRow) :
    dialog_exists u1 u2 db = none ↔ countPair u1 u2 db = 0 := by
  unfold dialog_exists countPair
  rw [List.head?_eq_none_iff, List.length_eq_zero]

theorem countPair_comm (u1 u2 : Nat) (db : List DialogRow) :
    countPair u1 u2 db = countPair u2 u1 db := by
  unfold countPair
  congr 1
  exact List.filter_congr (fun r _ => pairMatch_comm u1 u2 r)

theorem countPair_append (u1 u2 : Nat) (db1 db2 : List DialogRow) :
    countPair u1 u2 (db1 ++ db2) = countPair u1 u2 db1 + countPair u1 u2 db2 := by
  simp [countPair, List.filter_append]

theorem pairMatch_own (u1 u2 i : Nat) : pairMatch u1 u2 ⟨i, u1, u2⟩ = true := by
  simp [pairMatch]

/-- After `create_if_not_exists u1 u2`, a row for the pair exists. -/
theorem dialog_exists_after_create (u1 u2 : Nat) (db : List DialogRow) :
    (dialog_exists u1 u2 (create_if_not_exists u1 u2 db).snd).isSome := by
  unfold create_if_not_exists
  cases h : dialog_exists u1 u2 db with
  | some r => simp [h]
  | none =>
      simp only
      rw [dialog_exists_isSome_iff]
      exact ⟨⟨nextDialogId db, u1, u2⟩, List.mem_append_right _ (List.mem_singleton.mpr rfl),
        pairMatch_own u1 u2 _⟩

/-- When some row already matches the pair, `create_if_not_exists` leaves
the table unchanged. -/
theorem create_noop_of_exists (u1 u2 : Nat) (db : List DialogRow)
    (h : ∃ r ∈ db, pairMatch u1 u2 r = true) :
    (create_if_not_exists u1 u2 db).snd = db := by
  have hs : (dialog_exists u1 u2 db).isSome := (dialog_exists_isSome_iff u1 u2 db).mpr h
  unfold create_if_not_exists
  cases hd : dialog_exists u1 u2 db with
  | some r => rfl
  | none => rw [hd] at hs; simp at hs

/-- Net effect of one `create_if_not_exists` call on the pair's row count:
a first row appears when none matched, and nothing changes otherwise. -/
theorem countPair_after_create (u1 u2 : Nat) (db : List DialogRow) :
    countPair u1 u2 (create_if_not_exists u1 u2 db).snd =
      if countPair u1 u2 db = 0 then 1 else countPair u1 u2 db := by
  unfold create_if_not_exists
  cases hd : dialog_exists u1 u2 db with
  | some r =>
      have h0 : countPair u1 u2 db ≠ 0 := by
        intro hc
        have := (dialog_exists_eq_none_iff u1 u2 db).mpr hc
        rw [hd] at this
        exact Option.noConfusion this
      simp [h0]
  | none =>
      have h0 : countPair u1 u2 db = 0 := (dialog_exists_eq_none_iff u1 u2 db).mp hd
      simp only
      rw [countPair_append, h0, if_pos rfl]
      simp [countPair, pairMatch_own]

/-- `Dialog.eq` is exactly equality of the unordered id pairs. -/
theorem dialog_eq_iff_sameUnorderedPair (d1 d2 : Dialog) :
    Dialog.eq d1 d2 = true ↔ sameUnorderedPair d1 d2 := by
  unfold Dialog.eq sameUnorderedPair
  rw [Sym2.eq_iff]
  simp only [Bool.or_eq_true, Bool.and_eq_true, beq_iff_eq]
  tauto

/-- The saved row is a member of the table `super().save()` leaves behind,
whether the write was an insert or an update in place. -/
theorem mem_upsertMessage (m : MessageRow) (ms : List MessageRow) :
    m ∈ upsertMessage m ms := by
  unfold upsertMessage
  split
  · next hany =>
      rcases List.any_eq_true.mp hany with ⟨r, hr, hid⟩
      exact List.mem_map.mpr ⟨r, hr, by simp [hid]⟩
  · exact List.mem_append_right _ (List.mem_singleton.mpr rfl)

/-- Number of rows the spec's words count for `getUnreadCount`:
non-soft-deleted messages from `sender` to `recipient` whose read flag is
false. Stated from the spec's wording, to be compared with the source's
`get_unread_count_for_dialog_with_user`. -/
def unreadCountSpec (sender recipient : Nat) (ms : List MessageRow) : Nat :=
  (ms.filter (fun m =>
    !m.is_removed && m.sender == sender && m.recipient == recipient && m.read == false)).length

theorem unread_count_append (sender recipient : Nat) (ms1 ms2 : List MessageRow) :
    MessageModel.get_unread_count_for_dialog_with_user sender recipient (ms1 ++ ms2) =
      MessageModel.get_unread_count_for_dialog_with_user sender recipient ms1 +
      MessageModel.get_unread_count_for_dialog_with_user sender recipient ms2 := by
  simp [MessageModel.get_unread_count_for_dialog_with_user, MessageModel.objects,
    List.filter_append]

/-- `class Meta: ordering = ('-created',)` on `MessageModel`: the default
listing holds the rows of the default (soft-delete-excluding) manager in
an order that is descending on `created`. The declared ordering names no
second key, so any permutation of the visible rows that is non-increasing
in `created` is an admissible result of the query; ties on `created` are
left to the storage engine. -/
def isDefaultListing (ms l : List MessageRow) : Prop :=
  l.Perm (MessageModel.objects ms) ∧ l.Pairwise (fun a b => b.created ≤ a.created)

/-- The spec's tie-break rule, stated from its words: along the displayed
order, rows with equal creation timestamp appear in increasing `id`. -/
def tiesBrokenById (l : List MessageRow) : Prop :=
  l.Pairwise (fun a b => a.created = b.created → a.id < b.id)

/-- Two visible messages with the same `created` timestamp. -/
def sampleMsgA : MessageRow := ⟨1, 1, 2, "a", none, false, false, 5⟩

/-- Second sample message, larger id, same `created` as `sampleMsgA`. -/
def sampleMsgB : MessageRow := ⟨2, 1, 2, "b", none, false, false, 5⟩

/-- The declared storage constraint of `DialogsModel.Meta`:
`UniqueConstraint(fields=['user1', 'user2'], name='Unique dialog')` — no
two rows agree on the ordered field pair `(user1, user2)`. -/
def uniqueOrderedConstraint (db : List DialogRow) : Prop :=
  db.Pairwise (fun r s => ¬(r.user1 = s.user1 ∧ r.user2 = s.user2))

/-- `DialogsModel.objects.create(user1=u1, user2=u2)` as the storage layer
validates it: the insert succeeds when no existing row has the same ordered
`(user1, user2)` pair — the declared `UniqueConstraint` — and raises an
integrity error otherwise. -/
def insertDialogRow (u1 u2 : Nat) (db : List DialogRow) :
    Except Unit (List DialogRow) :=
  if db.all (fun r => !(r.user1 == u1 && r.user2 == u2)) then
    Except.ok (db ++ [⟨nextDialogId db, u1, u2⟩])
  else
    Except.error ()

/-- The racing schedule of two concurrent `create_if_not_exists` calls,
one per orientation: both callers run `dialog_exists` against the same
starting table before either inserts, then the inserts run in turn, each
validated by the declared constraint (a rejected insert leaves the table
unchanged). -/
def racedCreate (A B : Nat) (db : List DialogRow) : List DialogRow :=
  let res1 := dialog_exists A B db
  let res2 := dialog_exists B A db
  let db1 := if res1.isNone then
      match insertDialogRow A B db with
      | Except.ok db' => db'
      | Except.error _ => db
    else db
  if res2.isNone then
      match insertDialogRow B A db1 with
      | Except.ok db' => db'
      | Except.error _ => db1
  else db1

/- ## Claim theorems -/

/-- C2: for all Dialog values `d1` and `d2`, `d1` equals `d2` (under the
source's `Dialog.__eq__`) if and only if they relate the same unordered
pair of user ids, irrespective of which of the `creator`/`opponent` fields
holds which user; in particular `Dialog{creator=A, opponent=B}` compares
equal to `Dialog{creator=B, opponent=A}`. -/
theorem dialog_equality_is_unordered_pair_equality :
    (∀ d1 d2 : Dialog, Dialog.eq d1 d2 = true ↔ sameUnorderedPair d1 d2) ∧
    (∀ (i1 i2 : String) (A B : DialogUser),
      Dialog.eq ⟨i1, A, B⟩ ⟨i2, B, A⟩ = true) := by
  refine ⟨dialog_eq_iff_sameUnorderedPair, fun i1 i2 A B => ?_⟩
  rw [dialog_eq_iff_sameUnorderedPair]
  unfold sameUnorderedPair
  exact Sym2.eq_swap

/-- C10: `Dialog.eq` depends only on the two participants' user ids: the
dialog's own `id` field and the participants' `was_online` / `is_online`
fields are ignored, so two Dialog values with different dialog ids or
different presence snapshots but the same unordered pair of user ids
compare equal — in both the aligned and the swapped orientation. -/
theorem dialog_eq_ignores_id_and_presence :
    ∀ (i1 i2 : String) (A B : Nat) (w1 w2 w3 w4 : Option Nat) (b1 b2 b3 b4 : Bool),
      Dialog.eq ⟨i1, ⟨A, w1, b1⟩, ⟨B, w2, b2⟩⟩ ⟨i2, ⟨A, w3, b3⟩, ⟨B, w4, b4⟩⟩ = true ∧
      Dialog.eq ⟨i1, ⟨A, w1, b1⟩, ⟨B, w2, b2⟩⟩ ⟨i2, ⟨B, w3, b3⟩, ⟨A, w4, b4⟩⟩ = true := by
  intro i1 i2 A B w1 w2 w3 w4 b1 b2 b3 b4
  constructor <;> simp [Dialog.eq]

/-- C1: dialog lookup matches a persisted record in either stored
orientation (and is insensitive to argument order), and get-or-create is
idempotent and argument-order-insensitive in outcome: starting from a
table holding at most one record for the unordered pair `{A, B}`, after
sequentially calling `create_if_not_exists(A,B)` and
`create_if_not_exists(B,A)` — in either order — exactly one persisted
record exists for the pair, and a record stored in the opposite
orientation `(B,A)` stops a second record from being created. -/
theorem get_or_create_dialog_unordered_idempotent (A B : Nat) (db : List DialogRow)
    (h : countPair A B db ≤ 1) :
    ((dialog_exists A B db).isSome ↔ ∃ r ∈ db, pairMatch A B r = true) ∧
    dialog_exists A B db = dialog_exists B A db ∧
    countPair A B (create_if_not_exists B A (create_if_not_exists A B db).snd).snd = 1 ∧
    countPair A B (create_if_not_exists A B (create_if_not_exists B A db).snd).snd = 1 ∧
    (∀ r ∈ db, r.user1 = B → r.user2 = A → (create_if_not_exists A B db).snd = db) := by
  have h1 : countPair A B (create_if_not_exists A B db).snd = 1 := by
    rw [countPair_after_create]
    rcases Nat.le_one_iff_eq_zero_or_eq_one.mp h with h0 | h0 <;> simp [h0]
  have h2 : countPair A B (create_if_not_exists B A db).snd = 1 := by
    rw [countPair_comm, countPair_after_create, countPair_comm B A]
    rcases Nat.le_one_iff_eq_zero_or_eq_one.mp h with h0 | h0 <;> simp [h0]
  refine ⟨dialog_exists_isSome_iff A B db, dialog_exists_comm A B db, ?_, ?_, ?_⟩
  · rw [countPair_comm, countPair_after_create, countPair_comm B A, h1]
    simp
  · rw [countPair_after_create, h2]
    simp
  · intro r hr hu1 hu2
    exact create_noop_of_exists A B db ⟨r, hr, by simp [pairMatch, hu1, hu2]⟩

/-- Witness for C1 at `A = 1`, `B = 2`, the empty dialog table. -/
theorem get_or_create_dialog_unordered_idempotent_witness :
    countPair 1 2 ([] : List DialogRow) ≤ 1 ∧
    (((dialog_exists 1 2 ([] : List DialogRow)).isSome ↔
        ∃ r ∈ ([] : List DialogRow), pairMatch 1 2 r = true) ∧
     dialog_exists 1 2 ([] : List DialogRow) = dialog_exists 2 1 [] ∧
     countPair 1 2 (create_if_not_exists 2 1 (create_if_not_exists 1 2 []).snd).snd = 1 ∧
     countPair 1 2 (create_if_not_exists 1 2 (create_if_not_exists 2 1 []).snd).snd = 1 ∧
     (∀ r ∈ ([] : List DialogRow), r.user1 = 2 → r.user2 = 1 →
        (create_if_not_exists 1 2 ([] : List DialogRow)).snd = [])) :=
  ⟨by decide, get_or_create_dialog_unordered_idempotent 1 2 [] (by decide)⟩

/-- C4 counterexample: `create_if_not_exists` does not return the matching
dialog record — with the record `(1,2)` persisted, the lookup finds it,
yet the call's Python return value is `None`, so the claim's "returns that
record" is false at this input. -/
theorem create_if_not_exists_returns_none_cex :
    dialog_exists 1 2 [⟨0, 1, 2⟩] = some ⟨0, 1, 2⟩ ∧
    (create_if_not_exists 1 2 [⟨0, 1, 2⟩]).fst = none := by
  decide

/-- C4 (amended): `create_if_not_exists(u1, u2)` ensures a dialog record
for the unordered pair — when a record matching the pair in either
orientation exists the table is unchanged (no mutation, no duplicate), and
otherwise exactly one new record for the pair is appended — but the
function returns `None` on both paths rather than the dialog record. -/
theorem create_if_not_exists_effect (u1 u2 : Nat) (db : List DialogRow) :
    (create_if_not_exists u1 u2 db).fst = none ∧
    ((∃ r ∈ db, pairMatch u1 u2 r = true) → (create_if_not_exists u1 u2 db).snd = db) ∧
    (dialog_exists u1 u2 db = none →
      (create_if_not_exists u1 u2 db).snd = db ++ [⟨nextDialogId db, u1, u2⟩]) := by
  refine ⟨?_, create_noop_of_exists u1 u2 db, ?_⟩
  · unfold create_if_not_exists
    cases hd : dialog_exists u1 u2 db <;> simp
  · intro hd
    unfold create_if_not_exists
    rw [hd]

/-- C3: creating a message persists a new message row with `read = false`
and, as a side effect of `MessageModel.save`, invokes the dialog
get-or-create for `(sender, recipient)`; consequently, for all users `A`
and `B`, `createMessage A B payload` followed by the dialog lookup for
`(A, B)` finds a present dialog — even when none existed before, since the
state `s` is arbitrary. -/
theorem createMessage_persists_row_and_dialog (A B : Nat) (payload : String)
    (t : Nat) (s : ChatState) :
    (∃ m ∈ (createMessage A B payload t s).messages,
      m.sender = A ∧ m.recipient = B ∧ m.text = payload ∧ m.read = false) ∧
    (dialog_exists A B (createMessage A B payload t s).dialogs).isSome := by
  constructor
  · exact ⟨⟨nextMessageId s.messages, A, B, payload, none, false, false, t⟩,
      mem_upsertMessage _ s.messages, rfl, rfl, rfl, rfl⟩
  · exact dialog_exists_after_create A B s.dialogs

/-- C9: every `MessageModel.save` — insert or re-save of an existing row,
for example one flipping the `read` or soft-delete flag — unconditionally
routes the dialog table through `create_if_not_exists(sender, recipient)`;
hence after any save a dialog record exists for that pair. -/
theorem save_always_ensures_dialog (m : MessageRow) (s : ChatState) :
    (MessageModel.save m s).dialogs =
      (create_if_not_exists m.sender m.recipient s.dialogs).snd ∧
    (dialog_exists m.sender m.recipient (MessageModel.save m s).dialogs).isSome :=
  ⟨rfl, dialog_exists_after_create _ _ _⟩

/-- C5: `get_unread_count_for_dialog_with_user sender recipient` equals the
number of non-soft-deleted messages from `sender` to `recipient` whose read
flag is false, and the count is directional: appending a message that is
from a different sender, to a different recipient, or already marked read
leaves it unchanged. -/
theorem unread_count_directional (sender recipient : Nat) (ms : List MessageRow) :
    MessageModel.get_unread_count_for_dialog_with_user sender recipient ms =
      unreadCountSpec sender recipient ms ∧
    (∀ m : MessageRow,
      (m.sender ≠ sender ∨ m.recipient ≠ recipient ∨ m.read = true) →
      MessageModel.get_unread_count_for_dialog_with_user sender recipient (ms ++ [m]) =
        MessageModel.get_unread_count_for_dialog_with_user sender recipient ms) := by
  constructor
  · simp [MessageModel.get_unread_count_for_dialog_with_user, MessageModel.objects,
      unreadCountSpec, List.filter_filter, Bool.and_comm, Bool.and_assoc, Bool.and_left_comm]
  · intro m hm
    rw [unread_count_append]
    have h0 : MessageModel.get_unread_count_for_dialog_with_user sender recipient [m] = 0 := by
      cases hrem : m.is_removed <;> rcases hm with h | h | h <;>
        simp [MessageModel.get_unread_count_for_dialog_with_user, MessageModel.objects,
          List.filter, hrem, h]
    rw [h0, Nat.add_zero]

/-- C6: a message row whose soft-delete flag is set is excluded from the
default query surface (`MessageModel.objects`) but remains retrievable
through the administrative surface (`MessageModel.all_objects`), in every
state of the message table. -/
theorem soft_deleted_hidden_but_retained (ms : List MessageRow) (m : MessageRow)
    (hmem : m ∈ ms) (hdel : m.is_removed = true) :
    m ∉ MessageModel.objects ms ∧ m ∈ MessageModel.all_objects ms := by
  refine ⟨fun hin => ?_, hmem⟩
  have hkeep := (List.mem_filter.mp hin).2
  rw [hdel] at hkeep
  simp at hkeep

/-- C7 counterexample: the declared ordering `('-created',)` does not break
ties by message id — the listing that shows the two equal-`created` sample
messages with the larger id first is an admissible default listing of the
table, yet its ties are not in increasing id order, so the code does not
define the display order by timestamp-then-id. -/
theorem default_listing_tie_order_cex :
    isDefaultListing [sampleMsgA, sampleMsgB] [sampleMsgB, sampleMsgA] ∧
    ¬ tiesBrokenById [sampleMsgB, sampleMsgA] := by
  unfold isDefaultListing tiesBrokenById
  refine ⟨⟨by decide, by decide⟩, by decide⟩

/-- C7 (amended): every admissible default listing is reverse-chronological
— creation times are non-increasing along the result — and holds exactly
the non-soft-deleted rows; the declared ordering `('-created',)` names no
second key, so the relative order of rows with equal creation time is not
determined by the code (in particular not by message id). -/
theorem default_listing_reverse_chronological (ms l : List MessageRow)
    (h : isDefaultListing ms l) :
    (∀ i j : Fin l.length, i ≤ j → (l.get j).created ≤ (l.get i).created) ∧
    (∀ m : MessageRow, m ∈ l ↔ (m ∈ ms ∧ m.is_removed = false)) := by
  obtain ⟨hperm, hsort⟩ := h
  constructor
  · intro i j hij
    rcases lt_or_eq_of_le hij with hlt | heq
    · exact List.pairwise_iff_get.mp hsort i j hlt
    · rw [heq]
  · intro m
    rw [hperm.mem_iff]
    unfold MessageModel.objects
    rw [List.mem_filter]
    cases hrem : m.is_removed <;> simp [hrem]

/-- Witness for C7 at the one-row table: its only admissible listing. -/
theorem default_listing_reverse_chronological_witness :
    (∀ i j : Fin ([sampleMsgA] : List MessageRow).length, i ≤ j →
      (([sampleMsgA] : List MessageRow).get j).created ≤
        (([sampleMsgA] : List MessageRow).get i).created) ∧
    (∀ m : MessageRow, m ∈ ([sampleMsgA] : List MessageRow) ↔
      (m ∈ ([sampleMsgA] : List MessageRow) ∧ m.is_removed = false)) :=
  default_listing_reverse_chronological [sampleMsgA] [sampleMsgA]
    ⟨by decide, by decide⟩

/-- C8 counterexample: when users 1 and 2 both run `create_if_not_exists`
concurrently and each observes the pair as absent before either inserts,
both inserts pass the declared `UniqueConstraint` on the ordered field pair
`(user1, user2)` — the final table satisfies that constraint yet holds two
records for the unordered pair `{1, 2}`, so the storage layer does not
enforce uniqueness over the canonicalized unordered pair. -/
theorem raced_create_duplicate_pair_cex :
    countPair 1 2 (racedCreate 1 2 []) = 2 ∧
    uniqueOrderedConstraint (racedCreate 1 2 []) := by
  unfold uniqueOrderedConstraint
  exact ⟨by decide, by decide⟩

/-- C8 (amended): the storage-layer `UniqueConstraint` covers the ordered
pair `(user1, user2)` only, so it admits one record per orientation: under
the concurrent schedule in which both participants observe the pair as
absent before either inserts, both inserts are accepted and the table ends
with exactly two records for the unordered pair — one per orientation —
while still satisfying the declared ordered-pair constraint. -/
theorem ordered_unique_constraint_race (A B : Nat) (db : List DialogRow)
    (hne : A ≠ B) (h0 : countPair A B db = 0) (hu : uniqueOrderedConstraint db) :
    countPair A B (racedCreate A B db) = 2 ∧
    uniqueOrderedConstraint (racedCreate A B db) := by
  have hfil : db.filter (pairMatch A B) = [] := List.length_eq_zero.mp h0
  have hall : ∀ r ∈ db, ¬ pairMatch A B r = true := List.filter_eq_nil_iff.mp hfil
  have hall' : ∀ r ∈ db, (r.user1 = A → ¬ r.user2 = B) ∧ (r.user1 = B → ¬ r.user2 = A) := by
    intro r hr
    have h' := hall r hr
    simp [pairMatch] at h'
    exact h'
  have hex1 : dialog_exists A B db = none := (dialog_exists_eq_none_iff A B db).mpr h0
  have h0' : countPair B A db = 0 := by rw [countPair_comm B A db]; exact h0
  have hex2 : dialog_exists B A db = none := (dialog_exists_eq_none_iff B A db).mpr h0'
  have hcond1 : db.all (fun r => !(r.user1 == A && r.user2 == B)) = true := by
    rw [List.all_eq_true]
    intro r hr
    by_cases h1 : r.user1 = A
    · have h2 := (hall' r hr).1 h1
      simp [h1, h2]
    · simp [h1]
  have hins1 : insertDialogRow A B db =
      Except.ok (db ++ [(⟨nextDialogId db, A, B⟩ : DialogRow)]) := by
    unfold insertDialogRow
    rw [if_pos hcond1]
  have hcond2 : (db ++ [(⟨nextDialogId db, A, B⟩ : DialogRow)]).all
      (fun r => !(r.user1 == B && r.user2 == A)) = true := by
    rw [List.all_eq_true]
    intro r hr
    rcases List.mem_append.mp hr with hr' | hr'
    · by_cases h1 : r.user1 = B
      · have h2 := (hall' r hr').2 h1
        simp [h1, h2]
      · simp [h1]
    · rw [List.mem_singleton.mp hr']
      simp [hne]
  have hins2 : insertDialogRow B A (db ++ [(⟨nextDialogId db, A, B⟩ : DialogRow)]) =
      Except.ok ((db ++ [(⟨nextDialogId db, A, B⟩ : DialogRow)]) ++
        [(⟨nextDialogId (db ++ [(⟨nextDialogId db, A, B⟩ : DialogRow)]), B, A⟩ : DialogRow)]) := by
    unfold insertDialogRow
    rw [if_pos hcond2]
  have hrun : racedCreate A B db = (db ++ [(⟨nextDialogId db, A, B⟩ : DialogRow)]) ++
      [(⟨nextDialogId (db ++ [(⟨nextDialogId db, A, B⟩ : DialogRow)]), B, A⟩ : DialogRow)] := by
    unfold racedCreate
    rw [hex1, hex2]
    simp only [Option.isNone_none, if_true]
    rw [hins1, hins2]
  have hx : countPair A B [(⟨nextDialogId db, A, B⟩ : DialogRow)] = 1 := by
    simp [countPair, List.filter, pairMatch]
  have hy : countPair A B
      [(⟨nextDialogId (db ++ [(⟨nextDialogId db, A, B⟩ : DialogRow)]), B, A⟩ : DialogRow)] = 1 := by
    simp [countPair, List.filter, pairMatch]
  constructor
  · rw [hrun, countPair_append, countPair_append, h0, hx, hy]
  · rw [hrun]
    unfold uniqueOrderedConstraint
    rw [List.pairwise_append]
    refine ⟨?_, List.pairwise_singleton _ _, ?_⟩
    · rw [List.pairwise_append]
      refine ⟨hu, List.pairwise_singleton _ _, ?_⟩
      intro a ha b hb
      rw [List.mem_singleton.mp hb]
      intro hab
      exact (hall' a ha).1 hab.1 hab.2
    · intro a ha b hb
      rw [List.mem_singleton.mp hb]
      intro hab
      rcases List.mem_append.mp ha with ha' | ha'
      · exact (hall' a ha').2 hab.1 hab.2
      · rw [List.mem_singleton.mp ha'] at hab
        exact hne hab.1

/-- Witness for C8's amended theorem: users 3 and 4 racing over a table
that holds an unrelated dialog `(1, 2)`. -/
theorem ordered_unique_constraint_race_witness :
    countPair 3 4 (racedCreate 3 4 [⟨0, 1, 2⟩]) = 2 ∧
    uniqueOrderedConstraint (racedCreate 3 4 [⟨0, 1, 2⟩]) :=
  ordered_unique_constraint_race 3 4 [⟨0, 1, 2⟩] (by decide) (by decide)
    (by unfold uniqueOrderedConstraint; decide)

/-- Witness for C6: a concrete soft-deleted row in a one-row table. -/
theorem soft_deleted_hidden_but_retained_witness :
    (⟨0, 1, 2, "hi", none, false, true, 0⟩ : MessageRow) ∉
      MessageModel.objects [⟨0, 1, 2, "hi", none, false, true, 0⟩] ∧
    (⟨0, 1, 2, "hi", none, false, true, 0⟩ : MessageRow) ∈
      MessageModel.all_objects [⟨0, 1, 2, "hi", none, false, true, 0⟩] :=
  soft_deleted_hidden_but_retained _ _ (by decide) rfl
